import Mathlib

/-!
Verification of the DataGuard demographic-masking pipeline.

The development shallowly embeds the repository's Python modules:

* `src/DataMasker.py` — the date shifter `add_days` and the synthetic field
  generators `generateName`, `generateAddress`, `generateContact`,
  `generateSSN`.
* `src/DemographicsMasking.py` — `mask_demographic_record`,
  `mask_demographics_batch` and `load_demographics_data`.

Python `datetime` values are modelled by their civil calendar components
(`Date`), and `datetime + timedelta(days=...)` is modelled the way CPython
implements it: ordinal-day arithmetic (`Date.toOrdinal`, the inverse
`ord2ymd` is CPython's `_ord2ymd`), together with the range check that makes
out-of-range results raise `OverflowError` (ordinals must stay inside
`[1, maxOrdinal]`, i.e. years 1..9999).  The lenient `dateutil` string parser
is kept abstract: every theorem quantifies over an arbitrary
`parseDate : String → Option Date` (`none` models a parse failure, which
`dateutil` raises as `ValueError`/`TypeError`).

The process-wide Faker instance is modelled by an explicit environment
`FakeEnv` holding the values the next faker calls would produce; a batch run
consumes one environment per record (`envs : Nat → FakeEnv`).
-/

/-- CPython `datetime._is_leap`: `year % 4 == 0 and (year % 100 != 0 or year % 400 == 0)`. -/
def isLeap (year : Int) : Bool :=
  year % 4 == 0 && (year % 100 != 0 || year % 400 == 0)

/-- CPython `_DAYS_IN_MONTH` lookup (non-leap February). -/
def daysInMonthTable (m : Int) : Int :=
  if m = 2 then 28
  else if m = 4 ∨ m = 6 ∨ m = 9 ∨ m = 11 then 30
  else 31

/-- CPython `datetime._days_in_month`. -/
def daysInMonth (year m : Int) : Int :=
  if m = 2 ∧ isLeap year = true then 29 else daysInMonthTable m

/-- CPython `_DAYS_BEFORE_MONTH` lookup: days in a non-leap year strictly
before month `m`. -/
def daysBeforeMonthTable (m : Int) : Int :=
  if m = 1 then 0
  else if m = 2 then 31
  else if m = 3 then 59
  else if m = 4 then 90
  else if m = 5 then 120
  else if m = 6 then 151
  else if m = 7 then 181
  else if m = 8 then 212
  else if m = 9 then 243
  else if m = 10 then 273
  else if m = 11 then 304
  else if m = 12 then 334
  else 0

/-- CPython `datetime._days_before_month`. -/
def daysBeforeMonth (year m : Int) : Int :=
  daysBeforeMonthTable m + (if 2 < m ∧ isLeap year = true then 1 else 0)

/-- CPython `datetime._days_before_year`:
`y = year - 1; y*365 + y//4 - y//100 + y//400` (Python floor division,
which is `Int.ediv`, Lean's `/` on `Int`). -/
def daysBeforeYear (year : Int) : Int :=
  (year - 1) * 365 + (year - 1) / 4 - (year - 1) / 100 + (year - 1) / 400

/-- The civil-calendar component of a Python `datetime` value (the masking
code only ever reads and writes the date part). -/
structure Date where
  year : Int
  month : Int
  day : Int
deriving DecidableEq

/-- CPython `datetime._ymd2ord` / `date.toordinal()`: proleptic Gregorian
ordinal, day 1 = January 1 of year 1. -/
def Date.toOrdinal (dt : Date) : Int :=
  daysBeforeYear dt.year + daysBeforeMonth dt.year dt.month + dt.day

/-- The component ranges Python's `datetime` constructor enforces
(`MINYEAR = 1`, `MAXYEAR = 9999`). -/
def Date.valid (dt : Date) : Prop :=
  1 ≤ dt.year ∧ dt.year ≤ 9999 ∧ 1 ≤ dt.month ∧ dt.month ≤ 12 ∧
    1 ≤ dt.day ∧ dt.day ≤ daysInMonth dt.year dt.month

instance (dt : Date) : Decidable dt.valid := by
  unfold Date.valid; infer_instance

/-- The body of CPython `datetime._ord2ymd` after its divmod chain:
`n400, n100, n4, n1` are the 400-year / 100-year / 4-year / 1-year block
counters and `doy` the remaining day-of-year offset (`n` in CPython).
`leapyear = n1 == 3 and (n4 != 24 or n100 == 3)`,
`month = (n + 50) >> 5`, and the `preceding > n` correction step are
written out with the `let`s inlined. -/
def ord2ymdBlocks (n400 n100 n4 n1 doy : Int) : Date :=
  if n1 = 4 ∨ n100 = 4 then
    ⟨n400 * 400 + 1 + n100 * 100 + n4 * 4 + n1 - 1, 12, 31⟩
  else
    if doy < daysBeforeMonthTable ((doy + 50) / 32) +
        (if 2 < (doy + 50) / 32 ∧ (n1 = 3 ∧ (n4 ≠ 24 ∨ n100 = 3)) then 1 else 0) then
      ⟨n400 * 400 + 1 + n100 * 100 + n4 * 4 + n1, (doy + 50) / 32 - 1,
        doy -
          (daysBeforeMonthTable ((doy + 50) / 32) +
              (if 2 < (doy + 50) / 32 ∧ (n1 = 3 ∧ (n4 ≠ 24 ∨ n100 = 3)) then 1
                else 0) -
            (daysInMonthTable ((doy + 50) / 32 - 1) +
              (if (doy + 50) / 32 - 1 = 2 ∧ (n1 = 3 ∧ (n4 ≠ 24 ∨ n100 = 3))
                then 1 else 0))) + 1⟩
    else
      ⟨n400 * 400 + 1 + n100 * 100 + n4 * 4 + n1, (doy + 50) / 32,
        doy -
          (daysBeforeMonthTable ((doy + 50) / 32) +
            (if 2 < (doy + 50) / 32 ∧ (n1 = 3 ∧ (n4 ≠ 24 ∨ n100 = 3)) then 1
              else 0)) + 1⟩

/-- CPython `datetime._ord2ymd`, the inverse of `toordinal`: peel off
400-year, 100-year, 4-year and 1-year blocks by floor divmod
(`Int.ediv`/`Int.emod`, Python `divmod`), then locate the month. -/
def ord2ymd (n : Int) : Date :=
  ord2ymdBlocks ((n - 1) / 146097) ((n - 1) % 146097 / 36524)
    ((n - 1) % 146097 % 36524 / 1461) ((n - 1) % 146097 % 36524 % 1461 / 365)
    ((n - 1) % 146097 % 36524 % 1461 % 365)

/-- CPython `_MAXORDINAL = _ymd2ord(9999, 12, 31)`: the largest ordinal a
`datetime` can represent. -/
def maxOrdinal : Int := Date.toOrdinal ⟨9999, 12, 31⟩

/-- `datetime + timedelta(days = days)` as CPython computes it: shift the
ordinal and convert back, raising `OverflowError` (modelled as `none`) when
the result leaves the representable range. -/
def addToDate (dt : Date) (days : Int) : Option Date :=
  let n := dt.toOrdinal + days
  if 1 ≤ n ∧ n ≤ maxOrdinal then some (ord2ymd n) else none

/-- `strftime` zero-padded two-digit field (`%m`, `%d`). -/
def pad2 (n : Int) : String :=
  if n < 10 then "0" ++ toString n else toString n

/-- `strftime` zero-padded four-digit year field (`%Y`). -/
def pad4 (n : Int) : String :=
  if n < 10 then "000" ++ toString n
  else if n < 100 then "00" ++ toString n
  else if n < 1000 then "0" ++ toString n
  else toString n

/-- `shifted_date.strftime('%m-%d-%Y')` from `mask_demographic_record`. -/
def formatMMDDYYYY (dt : Date) : String :=
  pad2 dt.month ++ "-" ++ pad2 dt.day ++ "-" ++ pad4 dt.year

instance exceptDecEq {ε α : Type} [DecidableEq ε] [DecidableEq α] :
    DecidableEq (Except ε α)
  | .error a, .error b =>
      if h : a = b then .isTrue (by rw [h])
      else .isFalse (fun hc => h (Except.error.inj hc))
  | .error _, .ok _ => .isFalse (fun hc => Except.noConfusion hc)
  | .ok _, .error _ => .isFalse (fun hc => Except.noConfusion hc)
  | .ok a, .ok b =>
      if h : a = b then .isTrue (by rw [h])
      else .isFalse (fun hc => h (Except.ok.inj hc))

/-- The errors `add_days` can raise: `ValueError` with a message naming the
offending string, `TypeError` for an unsupported input type, and the
`OverflowError` that `datetime + timedelta` raises out of range. -/
inductive AddError where
  | invalidFormat (input : String)
  | typeError
  | overflow
deriving DecidableEq

/-- The Python values `add_days` may be handed: a `datetime`, a string, or
anything else (`other` stands for any non-datetime, non-string value). -/
inductive PyVal where
  | dt (d : Date)
  | str (s : String)
  | other
deriving DecidableEq

/-- `DataMasker.add_days(startdate, days)`: a string is first parsed (a
parse failure is re-raised as `ValueError` whose message names the input);
a value that is not a `datetime` raises `TypeError`; otherwise the result
is `startdate + timedelta(days=days)`. -/
def add_days (parseDate : String → Option Date) (startdate : PyVal)
    (days : Int) : Except AddError Date :=
  match startdate with
  | .str s =>
      match parseDate s with
      | none => .error (.invalidFormat s)
      | some dt =>
          match addToDate dt days with
          | some res => .ok res
          | none => .error .overflow
  | .dt dt =>
      match addToDate dt days with
      | some res => .ok res
      | none => .error .overflow
  | .other => .error .typeError

/-- Python `str.strip()`: drop leading and trailing whitespace. -/
def pyStrip (s : String) : String :=
  String.mk
    (((s.data.dropWhile Char.isWhitespace).reverse.dropWhile
        Char.isWhitespace).reverse)

/-- Python `str.lower()` (ASCII case folding suffices for the
`'male'`/`'female'` comparisons the code performs). -/
def pyLower (s : String) : String :=
  String.mk (s.data.map Char.toLower)

/-- Split a character list at every character satisfying `p`, keeping empty
segments (so `splitChars p` of the empty list is `[[]]`). -/
def splitChars (p : Char → Bool) : List Char → List (List Char)
  | [] => [[]]
  | c :: cs =>
      match splitChars p cs with
      | [] => [[c]]
      | g :: gs => if p c then [] :: g :: gs else (c :: g) :: gs

/-- Python `str.split(sep)` for a one-character separator: empty pieces are
kept, and the result always has at least one element. -/
def pySplitSep (sep : Char) (s : String) : List String :=
  (splitChars (fun c => c = sep) s.data).map String.mk

/-- Python argumentless `str.split()`: split on whitespace and drop every
empty token. -/
def pySplit (s : String) : List String :=
  ((splitChars Char.isWhitespace s.data).map String.mk).filter
    (fun t => t != "")

/-- The values the process-wide Faker instance would hand to the next
generator calls: one field per distinct faker method the generators
consult.  `addressLines` is `fake.address().splitlines()`. -/
structure FakeEnv where
  ssn : String
  firstNameNeutral : String
  firstNameMale : String
  firstNameFemale : String
  lastName : String
  addressLines : List String
  streetAddress : String
  city : String
  stateAbbr : String
  postcode : String
  email : String
  phone : String
deriving DecidableEq

/-- Result shape of `DataMasker.generateName`. -/
structure NameComponents where
  firstName : String
  lastName : String
deriving DecidableEq

/-- Result shape of `DataMasker.generateAddress`. -/
structure AddressComponents where
  address : String
  city : String
  state : String
  postalCode : String
deriving DecidableEq

/-- Result shape of `DataMasker.generateContact`. -/
structure ContactComponents where
  email : String
  phone : String
deriving DecidableEq

/-- `DataMasker.generateSSN()`. -/
def generateSSN (env : FakeEnv) : String := env.ssn

/-- `DataMasker.generateName(gender)`: `None` or an unrecognised string
falls back to the unconditioned first name; `'male'`/`'female'` are matched
case-insensitively; the last name never depends on the hint.  (The
`except` fallback in the source is unreachable in this model because the
faker calls are values of `env`.) -/
def generateName (env : FakeEnv) (gender : Option String) : NameComponents :=
  { firstName :=
      match gender with
      | none => env.firstNameNeutral
      | some g =>
          if pyLower g = "male" then env.firstNameMale
          else if pyLower g = "female" then env.firstNameFemale
          else env.firstNameNeutral
    lastName := env.lastName }

/-- `DataMasker.generateAddress()`: decompose `fake.address().splitlines()`.
Python `"," in line` is membership of `','` in the characters, `split(",")`
is `pySplitSep ','`, `.strip()` is `pyStrip`, and argumentless `.split()`
is `pySplit`.  Indexing `cityStateZip[0]`/`[1]` in the comma branch cannot
fail in Python (a split on a contained separator yields at least two
parts), so the `getD` defaults are never consulted. -/
def generateAddress (env : FakeEnv) : AddressComponents :=
  let addressParts := env.addressLines
  if addressParts.length < 2 then
    { address := env.streetAddress, city := env.city, state := env.stateAbbr,
      postalCode := env.postcode }
  else
    let line0 := addressParts.getD 0 ""
    let line1 := addressParts.getD 1 ""
    if line1.data.contains ',' then
      let cityStateZip := pySplitSep ',' line1
      let stateZip := pySplit (pyStrip (cityStateZip.getD 1 ""))
      { address := line0
        city := pyStrip (cityStateZip.getD 0 "")
        state :=
          match stateZip with
          | [] => env.stateAbbr
          | t :: _ => t
        postalCode :=
          match stateZip with
          | _ :: t :: _ => t
          | _ => env.postcode }
    else
      let cityStateZip := pySplit line1
      { address := line0
        city :=
          match cityStateZip with
          | [] => env.city
          | t :: _ => t
        state :=
          match cityStateZip with
          | _ :: t :: _ => t
          | _ => env.stateAbbr
        postalCode :=
          match cityStateZip with
          | _ :: _ :: t :: _ => t
          | _ => env.postcode }

/-- `DataMasker.generateContact()` (the fallback branch is unreachable in
this model). -/
def generateContact (env : FakeEnv) : ContactComponents :=
  { email := env.email, phone := env.phone }

/-- An input CSV row as `mask_demographic_record` sees it: each field either
absent from the dict or present with a string value. -/
structure InputRecord where
  birthDate : Option String := none
  gender : Option String := none
  firstName : Option String := none
  lastName : Option String := none
  address : Option String := none
  city : Option String := none
  state : Option String := none
  postalCode : Option String := none
  email : Option String := none
  phone : Option String := none
  ssn : Option String := none
deriving DecidableEq

/-- The record `mask_demographic_record` assembles (all fields present). -/
structure MaskedRecord where
  ssn : String
  birthDate : String
  gender : String
  firstName : String
  lastName : String
  address : String
  city : String
  state : String
  postalCode : String
  phone : String
  email : String
deriving DecidableEq

/-- The exceptions that can escape `mask_demographic_record`: only the
`OverflowError` from `add_days`, which the inner
`except (ValueError, TypeError)` handler does not catch. -/
inductive MaskError where
  | overflow
deriving DecidableEq

/-- The fields of the masked record other than `birthDate`, exactly as
`mask_demographic_record` assigns them: a fresh SSN, the trimmed input
gender (`input_record.get('gender', '').strip()`), a name generated with
the trimmed gender as hint (`gender if gender else None`), and fresh
address and contact fields. -/
def maskAssemble (env : FakeEnv) (input_record : InputRecord)
    (birthDate : String) : MaskedRecord :=
  { ssn := generateSSN env
    birthDate := birthDate
    gender := pyStrip (input_record.gender.getD "")
    firstName :=
      (generateName env
        (if pyStrip (input_record.gender.getD "") = "" then none
          else some (pyStrip (input_record.gender.getD "")))).firstName
    lastName :=
      (generateName env
        (if pyStrip (input_record.gender.getD "") = "" then none
          else some (pyStrip (input_record.gender.getD "")))).lastName
    address := (generateAddress env).address
    city := (generateAddress env).city
    state := (generateAddress env).state
    postalCode := (generateAddress env).postalCode
    phone := (generateContact env).phone
    email := (generateContact env).email }

/-- `DemographicsMasking.mask_demographic_record(input_record,
date_shift_days)`.  The `birthDate` handling: present and non-empty →
parse; parse success → shift and reformat (`OverflowError` from the shift
escapes the `except (ValueError, TypeError)` handler and fails the
record); parse failure → keep the original raw string; absent or empty →
empty string. -/
def mask_demographic_record (parseDate : String → Option Date)
    (env : FakeEnv) (input_record : InputRecord) (date_shift_days : Int) :
    Except MaskError MaskedRecord :=
  match input_record.birthDate with
  | some s =>
      if s = "" then .ok (maskAssemble env input_record "")
      else
        match parseDate s with
        | some birth_date =>
            match addToDate birth_date date_shift_days with
            | some shifted =>
                .ok (maskAssemble env input_record (formatMMDDYYYY shifted))
            | none => .error .overflow
        | none => .ok (maskAssemble env input_record s)
  | none => .ok (maskAssemble env input_record "")

/-- What a call to `mask_demographics_batch` leaves behind: the input list
as the caller still sees it after the call (the loop only reads it), the
collected `masked_data`, and the final `errors` tally. -/
structure BatchResult where
  inputAfter : List InputRecord
  output : List MaskedRecord
  errors : Nat
deriving DecidableEq

/-- `DemographicsMasking.mask_demographics_batch(input_data,
date_shift_days)`: iterate in order, append each success, count and skip
each failure.  `envs i` is the faker state consumed while processing
record `i`. -/
def mask_demographics_batch (parseDate : String → Option Date)
    (envs : Nat → FakeEnv) (input_data : List InputRecord)
    (date_shift_days : Int) : BatchResult :=
  match input_data with
  | [] => { inputAfter := [], output := [], errors := 0 }
  | record :: rest =>
      let tail :=
        mask_demographics_batch parseDate (fun i => envs (i + 1)) rest
          date_shift_days
      match mask_demographic_record parseDate (envs 0) record date_shift_days with
      | .ok m =>
          { inputAfter := record :: tail.inputAfter, output := m :: tail.output,
            errors := tail.errors }
      | .error _ =>
          { inputAfter := record :: tail.inputAfter, output := tail.output,
            errors := tail.errors + 1 }

/-- The per-record outcomes of the batch loop, in iteration order (the
statement-side companion of `mask_demographics_batch`). -/
def maskResults (parseDate : String → Option Date) (envs : Nat → FakeEnv)
    (date_shift_days : Int) :
    List InputRecord → List (Except MaskError MaskedRecord)
  | [] => []
  | record :: rest =>
      mask_demographic_record parseDate (envs 0) record date_shift_days ::
        maskResults parseDate (fun i => envs (i + 1)) date_shift_days rest

/-- The two failure causes `load_demographics_data` detects itself and
wraps: `ValueError('CSV file appears to be empty or has no headers')` and
`ValueError('No valid data rows found in CSV file')`. -/
inductive LoadCause where
  | noHeaders
  | noValidRows
deriving DecidableEq

/-- What `load_demographics_data` raises: `FileNotFoundError` (raised
before the `try` block), or the wrapping
`IOError('Failed to load data from ...')` whose `__cause__` carries the
original failure. -/
inductive LoadError where
  | fileNotFound (filename : String)
  | failedToLoad (filename : String) (cause : LoadCause)
deriving DecidableEq

/-- `DemographicsMasking.load_demographics_data(filename)`.  The file is
abstracted to `Option` (missing vs present) of its parsed CSV rows, each
row a list of cell strings; the first row is the `DictReader` header
(`fieldnames` is `None` exactly when there is no first row).  A data row
is kept iff some cell is truthy (`any(row.values())`). -/
def load_demographics_data (file : Option (List (List String)))
    (filename : String) : Except LoadError (List (List String)) :=
  match file with
  | none => .error (.fileNotFound filename)
  | some lines =>
      match lines with
      | [] => .error (.failedToLoad filename .noHeaders)
      | _ :: rows =>
          let data := rows.filter (fun row => row.any (fun c => c != ""))
          if data = [] then .error (.failedToLoad filename .noValidRows)
          else .ok data

/-- A concrete faker environment used by the concrete-input theorems. -/
def envW : FakeEnv :=
  { ssn := "900-12-3456"
    firstNameNeutral := "Taylor"
    firstNameMale := "James"
    firstNameFemale := "Mary"
    lastName := "Smith"
    addressLines := ["12 Oak St", "Springfield, IL 62704"]
    streetAddress := "7 Elm St"
    city := "Dayton"
    stateAbbr := "OH"
    postcode := "45402"
    email := "user@example.net"
    phone := "555-0100" }

/-- A faker environment whose formatted address has a blank city segment
before the comma on line 2 (all component generators non-empty). -/
def envC : FakeEnv :=
  { envW with addressLines := ["1 Main St", ", NY 10001"] }

/-- A concrete stand-in for the `dateutil` parser: recognises exactly the
one date string the concrete-input theorems use. -/
def parseW : String → Option Date :=
  fun s => if s = "01-01-1990" then some ⟨1990, 1, 1⟩ else none

/-- Input record with a parseable birthDate and a gender. -/
def recW : InputRecord :=
  { birthDate := some "01-01-1990", gender := some "Female" }

/-- Input record whose gender carries surrounding whitespace. -/
def recG : InputRecord := { gender := some " Male " }

/-- Two records agreeing on birthDate and gender but differing elsewhere. -/
def recA : InputRecord :=
  { birthDate := some "01-01-1990", gender := some "Female",
    firstName := some "Alice", ssn := some "111-11-1111" }

/-- See `recA`. -/
def recB : InputRecord :=
  { birthDate := some "01-01-1990", gender := some "Female",
    firstName := some "Bob", address := some "1 Real Rd",
    ssn := some "222-22-2222" }

/-- Characterisation of the leap-year test as an arithmetic proposition. -/
theorem isLeap_true_iff (y : Int) :
    isLeap y = true ↔ (y % 4 = 0 ∧ (y % 100 ≠ 0 ∨ y % 400 = 0)) := by
  unfold isLeap
  simp [Bool.and_eq_true, Bool.or_eq_true, beq_iff_eq, bne_iff_ne]

/-- `_days_before_month` with its leap test spelled out arithmetically. -/
theorem daysBeforeMonth_char (y m : Int) :
    daysBeforeMonth y m =
      daysBeforeMonthTable m +
        (if 2 < m ∧ (y % 4 = 0 ∧ (y % 100 ≠ 0 ∨ y % 400 = 0)) then 1 else 0) := by
  unfold daysBeforeMonth
  simp only [isLeap_true_iff]

/-- The cumulative-table recurrence: each `_DAYS_BEFORE_MONTH` entry is the
previous entry plus the previous month's `_DAYS_IN_MONTH` entry. -/
theorem daysBeforeMonthTable_step (m : Int) (h2 : 2 ≤ m) (h12 : m ≤ 12) :
    daysBeforeMonthTable m =
      daysBeforeMonthTable (m - 1) + daysInMonthTable (m - 1) := by
  interval_cases m <;> decide

set_option maxHeartbeats 1600000 in
/-- The block part of `_ord2ymd` inverts `toordinal` on its block inputs.
The hypotheses are exactly the range and degeneracy facts the divmod chain
guarantees; the conclusion telescopes the day-of-year bookkeeping. -/
theorem ord2ymdBlocks_toOrdinal (a b c d doy : Int)
    (hb : 0 ≤ b ∧ b ≤ 4) (hc : 0 ≤ c ∧ c ≤ 24) (hd : 0 ≤ d ∧ d ≤ 4)
    (hdoy : 0 ≤ doy ∧ doy ≤ 364)
    (hd4 : d = 4 → c ≤ 23 ∧ doy = 0)
    (hb4 : b = 4 → c = 0 ∧ d = 0 ∧ doy = 0) :
    (ord2ymdBlocks a b c d doy).toOrdinal =
      a * 146097 + b * 36524 + c * 1461 + d * 365 + doy + 1 := by
  have hstep : 2 ≤ (doy + 50) / 32 → (doy + 50) / 32 ≤ 12 →
      daysBeforeMonthTable ((doy + 50) / 32) =
        daysBeforeMonthTable ((doy + 50) / 32 - 1) +
          daysInMonthTable ((doy + 50) / 32 - 1) :=
    fun h2 h12 => daysBeforeMonthTable_step _ h2 h12
  have hone : (doy + 50) / 32 = 1 → daysBeforeMonthTable ((doy + 50) / 32) = 0 := by
    intro h
    rw [h]
    decide
  have hD : daysBeforeMonthTable 12 = 334 := by decide
  unfold ord2ymdBlocks
  split_ifs <;>
    simp only [Date.toOrdinal, daysBeforeMonth_char, daysBeforeYear] <;>
    split_ifs <;> omega

/-- Round-trip: `_ord2ymd` is a right inverse of `toordinal`.  This is the
heart of the date-shift correctness claims. -/
theorem toOrdinal_ord2ymd (n : Int) : (ord2ymd n).toOrdinal = n := by
  unfold ord2ymd
  rw [ord2ymdBlocks_toOrdinal _ _ _ _ _ (by omega) (by omega) (by omega)
    (by omega) (by omega) (by omega)]
  omega

/-- Claim C3 counterexample: at the valid datetime 9999-12-31 and day count
1 (or at any parseable date with a large enough day count), `add_days` does
not return a shifted date at all — CPython raises `OverflowError` because
the result leaves the representable year range 1..9999. -/
theorem add_days_overflow_cex :
    add_days parseW (.dt ⟨9999, 12, 31⟩) 1 = .error .overflow ∧
    (add_days parseW (.dt ⟨9999, 12, 31⟩) 1).toOption.map Date.toOrdinal ≠
      some (Date.toOrdinal ⟨9999, 12, 31⟩ + 1) := by
  decide

/-- Claim C3 (amended): for every valid datetime `D` (given directly or as
a string the parser accepts) and every integer day count `days` — negative,
zero or positive — such that the shifted ordinal stays in the representable
range `[1, maxOrdinal]`, `add_days` returns a date whose ordinal day number
equals `D`'s ordinal plus `days`, by pure civil-date arithmetic; outside
that range the date addition overflows. -/
theorem add_days_ordinal (parseDate : String → Option Date) (days : Int) :
    (∀ D : Date, D.valid →
        1 ≤ D.toOrdinal + days → D.toOrdinal + days ≤ maxOrdinal →
        (add_days parseDate (.dt D) days).toOption.map Date.toOrdinal =
          some (D.toOrdinal + days)) ∧
    (∀ s D, parseDate s = some D → D.valid →
        1 ≤ D.toOrdinal + days → D.toOrdinal + days ≤ maxOrdinal →
        (add_days parseDate (.str s) days).toOption.map Date.toOrdinal =
          some (D.toOrdinal + days)) := by
  constructor
  · intro D _ h1 h2
    simp only [add_days, addToDate]
    rw [if_pos ⟨h1, h2⟩]
    simp [Except.toOption, toOrdinal_ord2ymd]
  · intro s D hp _ h1 h2
    simp only [add_days, hp, addToDate]
    rw [if_pos ⟨h1, h2⟩]
    simp [Except.toOption, toOrdinal_ord2ymd]

/-- Witness for the amended C3 at `datetime(2023, 1, 1)` plus 10 days. -/
theorem add_days_ordinal_witness :
    (add_days parseW (.dt ⟨2023, 1, 1⟩) 10).toOption.map Date.toOrdinal =
      some (Date.toOrdinal ⟨2023, 1, 1⟩ + 10) :=
  (add_days_ordinal parseW 10).1 ⟨2023, 1, 1⟩ (by decide) (by decide) (by decide)

/-- Claim C6: a string the parser rejects always fails with the
malformed-date `ValueError` whose message names the offending input, and a
non-datetime non-string input always fails with the wrong-input-type
`TypeError`, whatever the day count. -/
theorem add_days_error_kinds (parseDate : String → Option Date) (days : Int) :
    (∀ s, parseDate s = none →
        add_days parseDate (.str s) days = .error (.invalidFormat s)) ∧
    add_days parseDate .other days = .error .typeError := by
  constructor
  · intro s hs
    simp [add_days, hs]
  · rfl

/-- Witness for C6 at a concrete unparseable string and non-date input. -/
theorem add_days_error_kinds_witness :
    parseW "not-a-date" = none ∧
    add_days parseW (.str "not-a-date") 5 = .error (.invalidFormat "not-a-date") ∧
    add_days parseW .other 5 = .error .typeError :=
  ⟨by decide, (add_days_error_kinds parseW 5).1 "not-a-date" (by decide),
    (add_days_error_kinds parseW 5).2⟩

/-- Claim C2 counterexample: with a parseable birthDate and a day shift
pushing the date past year 9999, `mask_demographic_record` does not emit a
record with the shifted (or any) birthDate — the `OverflowError` escapes
the inner handler and the whole record fails. -/
theorem mask_birthDate_overflow_cex :
    mask_demographic_record parseW envW recW 10000000 = .error .overflow ∧
    (mask_demographic_record parseW envW recW 10000000).toOption = none := by
  decide

/-- Claim C2 (amended): the birthDate cases of `mask_demographic_record`.
Absent or empty birthDate → output birthDate is the empty string; present,
non-empty and unparseable → output birthDate is the original raw string and
the record still succeeds; present, non-empty and parseable → output
birthDate is the parsed date shifted by `days` formatted `MM-DD-YYYY`,
provided the shift stays inside the representable range — when it does
not, the overflow escapes and the record fails. -/
theorem mask_birthDate_cases (parseDate : String → Option Date)
    (env : FakeEnv) (r : InputRecord) (days : Int) :
    (r.birthDate = none →
        (mask_demographic_record parseDate env r days).toOption.map
          MaskedRecord.birthDate = some "") ∧
    (r.birthDate = some "" →
        (mask_demographic_record parseDate env r days).toOption.map
          MaskedRecord.birthDate = some "") ∧
    (∀ s, r.birthDate = some s → s ≠ "" → parseDate s = none →
        (mask_demographic_record parseDate env r days).toOption.map
          MaskedRecord.birthDate = some s) ∧
    (∀ s bd, r.birthDate = some s → s ≠ "" → parseDate s = some bd →
        1 ≤ bd.toOrdinal + days → bd.toOrdinal + days ≤ maxOrdinal →
        (mask_demographic_record parseDate env r days).toOption.map
          MaskedRecord.birthDate =
          some (formatMMDDYYYY (ord2ymd (bd.toOrdinal + days)))) ∧
    (∀ s bd, r.birthDate = some s → s ≠ "" → parseDate s = some bd →
        (bd.toOrdinal + days < 1 ∨ maxOrdinal < bd.toOrdinal + days) →
        mask_demographic_record parseDate env r days = .error .overflow) := by
  refine ⟨?_, ?_, ?_, ?_, ?_⟩
  · intro h
    simp [mask_demographic_record, h, Except.toOption, maskAssemble]
  · intro h
    simp [mask_demographic_record, h, Except.toOption, maskAssemble]
  · intro s h hs hp
    simp [mask_demographic_record, h, hs, hp, Except.toOption, maskAssemble]
  · intro s bd h hs hp h1 h2
    simp only [mask_demographic_record, h]
    rw [if_neg hs]
    simp only [hp, addToDate]
    rw [if_pos ⟨h1, h2⟩]
    simp [Except.toOption, maskAssemble]
  · intro s bd h hs hp hout
    simp only [mask_demographic_record, h]
    rw [if_neg hs]
    simp only [hp, addToDate]
    rw [if_neg (by omega : ¬(1 ≤ bd.toOrdinal + days ∧ bd.toOrdinal + days ≤ maxOrdinal))]

/-- Witness for the amended C2: `birthDate = "01-01-1990"` shifted by 10
days is emitted as `"01-11-1990"`. -/
theorem mask_birthDate_cases_witness :
    (mask_demographic_record parseW envW recW 10).toOption.map
      MaskedRecord.birthDate = some "01-11-1990" := by
  have h := (mask_birthDate_cases parseW envW recW 10).2.2.2.1 "01-01-1990"
    ⟨1990, 1, 1⟩ (by decide) (by decide) (by decide) (by decide) (by decide)
  rw [h]
  decide

/-- Every successful `mask_demographic_record` result is an assembly over
the input record and environment for some birthDate string. -/
theorem mask_ok_shape (parseDate : String → Option Date) (env : FakeEnv)
    (r : InputRecord) (days : Int) (m : MaskedRecord)
    (h : mask_demographic_record parseDate env r days = .ok m) :
    ∃ b, m = maskAssemble env r b := by
  unfold mask_demographic_record at h
  rcases hb : r.birthDate with _ | s
  · simp only [hb] at h
    exact ⟨"", (Except.ok.inj h).symm⟩
  · simp only [hb] at h
    by_cases hs : s = ""
    · rw [if_pos hs] at h
      exact ⟨"", (Except.ok.inj h).symm⟩
    · rw [if_neg hs] at h
      rcases hp : parseDate s with _ | bd
      · simp only [hp] at h
        exact ⟨s, (Except.ok.inj h).symm⟩
      · simp only [hp] at h
        rcases ha : addToDate bd days with _ | sh
        · simp only [ha] at h
          exact Except.noConfusion h
        · simp only [ha] at h
          exact ⟨formatMMDDYYYY sh, (Except.ok.inj h).symm⟩

/-- Claim C5 counterexample: input gender `" Male "` is emitted as
`"Male"` — trimmed, not copied character for character. -/
theorem mask_gender_cex :
    (mask_demographic_record parseW envW recG 10).toOption.map
      MaskedRecord.gender = some "Male" ∧ (" Male " : String) ≠ "Male" := by
  decide

/-- Claim C5 (amended): whenever `mask_demographic_record` succeeds, the
output gender is the input gender trimmed of surrounding whitespace —
hence copied character for character exactly when the input carries no
surrounding whitespace — and that same trimmed value (as the hint, or no
hint when it trims to empty) is what conditions the generated first name,
while the last name is the environment's last name regardless of gender. -/
theorem mask_gender_trimmed (parseDate : String → Option Date)
    (env : FakeEnv) (r : InputRecord) (days : Int) (m : MaskedRecord)
    (h : mask_demographic_record parseDate env r days = .ok m) :
    m.gender = pyStrip (r.gender.getD "") ∧
    (pyStrip (r.gender.getD "") = r.gender.getD "" → m.gender = r.gender.getD "") ∧
    m.firstName =
      (generateName env
        (if pyStrip (r.gender.getD "") = "" then none
          else some (pyStrip (r.gender.getD "")))).firstName ∧
    m.lastName = env.lastName := by
  obtain ⟨b, rfl⟩ := mask_ok_shape parseDate env r days m h
  refine ⟨rfl, ?_, rfl, rfl⟩
  intro ht
  simp only [maskAssemble]
  exact ht

/-- Witness for the amended C5 at a record whose gender is `"Female"`. -/
theorem mask_gender_trimmed_witness :
    (maskAssemble envW recW "01-11-1990").gender = "Female" ∧
    (maskAssemble envW recW "01-11-1990").firstName = envW.firstNameFemale := by
  have hok : mask_demographic_record parseW envW recW 10 =
      Except.ok (maskAssemble envW recW "01-11-1990") := by decide
  have hm := mask_gender_trimmed parseW envW recW 10 _ hok
  constructor
  · rw [hm.1]
    decide
  · rw [hm.2.2.1]
    decide

/-- Claim C9: the masked output depends on the input record only through
its birthDate and gender fields — two inputs agreeing on those two fields
(same parser, same faker stream, same day shift) mask to identical
results, whatever their other fields hold. -/
theorem mask_noninterference (parseDate : String → Option Date)
    (env : FakeEnv) (days : Int) (r1 r2 : InputRecord)
    (hb : r1.birthDate = r2.birthDate) (hg : r1.gender = r2.gender) :
    mask_demographic_record parseDate env r1 days =
      mask_demographic_record parseDate env r2 days := by
  have hA : ∀ b, maskAssemble env r1 b = maskAssemble env r2 b := by
    intro b
    unfold maskAssemble
    rw [hg]
  unfold mask_demographic_record
  rw [hb]
  simp only [hA]

/-- Witness for C9: two records differing in name, address and ssn but
agreeing on birthDate and gender mask identically. -/
theorem mask_noninterference_witness :
    mask_demographic_record parseW envW recA 10 =
      mask_demographic_record parseW envW recB 10 ∧ recA ≠ recB :=
  ⟨mask_noninterference parseW envW 10 recA recB (by decide) (by decide),
    by decide⟩

/-- Claim C1: the batch output is exactly the list of successful per-record
outcomes in iteration order (no placeholders), the error tally counts
exactly the failed records, and output length plus error count equals the
input length — a failing record never aborts the batch (the function is
total and the remaining records are still processed). -/
theorem mask_batch_collects (parseDate : String → Option Date)
    (envs : Nat → FakeEnv) (days : Int) (input : List InputRecord) :
    (mask_demographics_batch parseDate envs input days).output =
        (maskResults parseDate envs days input).filterMap Except.toOption ∧
    (mask_demographics_batch parseDate envs input days).errors =
        (maskResults parseDate envs days input).countP
          (fun res => !res.toOption.isSome) ∧
    (mask_demographics_batch parseDate envs input days).output.length +
        (mask_demographics_batch parseDate envs input days).errors =
      input.length := by
  induction input generalizing envs with
  | nil =>
      exact ⟨rfl, rfl, rfl⟩
  | cons record rest ih =>
      obtain ⟨ih1, ih2, ih3⟩ := ih (fun i => envs (i + 1))
      simp only [mask_demographics_batch, maskResults]
      cases hres : mask_demographic_record parseDate (envs 0) record days with
      | ok m =>
          refine ⟨?_, ?_, ?_⟩
          · simp [hres, ih1, Except.toOption]
          · simp [hres, ih2, Except.toOption]
          · simp only [hres]
            simp
            omega
      | error e =>
          refine ⟨?_, ?_, ?_⟩
          · simp [hres, ih1, Except.toOption]
          · simp [hres, ih2, Except.toOption]
          · simp only [hres]
            simp
            omega

/-- Claim C10: the batch pipeline never mutates its input — after the call
the input list holds the same records in the same order with all their
original field values; the masked output is assembled in fresh records. -/
theorem mask_batch_preserves_input (parseDate : String → Option Date)
    (envs : Nat → FakeEnv) (days : Int) (input : List InputRecord) :
    (mask_demographics_batch parseDate envs input days).inputAfter = input := by
  induction input generalizing envs with
  | nil => rfl
  | cons record rest ih =>
      simp only [mask_demographics_batch]
      cases hres : mask_demographic_record parseDate (envs 0) record days <;>
        simp [hres, ih (fun i => envs (i + 1))]

/-- Tokens produced by Python argumentless `split()` are never empty. -/
theorem pySplit_mem_ne (s : String) (t : String) (h : t ∈ pySplit s) :
    t ≠ "" := by
  unfold pySplit at h
  have hp := List.of_mem_filter h
  simpa using hp

/-- Claim C4 counterexample: when the formatted address has two lines and
the second starts with a comma, the decomposition emits an empty city even
though every underlying generator value is non-empty — the result is not
"four non-empty strings" for this shape. -/
theorem generateAddress_blank_city_cex :
    (generateAddress envC).city = "" ∧ envC.streetAddress ≠ "" ∧
      envC.city ≠ "" ∧ envC.stateAbbr ≠ "" ∧ envC.postcode ≠ "" ∧
      (generateAddress envC).address = "1 Main St" ∧
      (generateAddress envC).state = "NY" ∧
      (generateAddress envC).postalCode = "10001" := by
  decide

/-- Claim C4 (amended): `generateAddress` is total (never raises) and, on
every shape of the underlying formatted address, returns all four
components — address, city, state, postalCode — and each is non-empty
provided the fallback generator values are non-empty and, when
decomposition is attempted (at least 2 lines), the first line is non-empty
and, in the comma case, the segment of line 2 before the comma is
non-blank after stripping. -/
theorem generateAddress_fields (env : FakeEnv)
    (hstreet : env.streetAddress ≠ "") (hcity : env.city ≠ "")
    (hstate : env.stateAbbr ≠ "") (hpost : env.postcode ≠ "")
    (hline0 : 2 ≤ env.addressLines.length → env.addressLines.getD 0 "" ≠ "")
    (hline1 : 2 ≤ env.addressLines.length →
        (env.addressLines.getD 1 "").data.contains ',' = true →
        pyStrip ((pySplitSep ',' (env.addressLines.getD 1 "")).getD 0 "") ≠ "") :
    (generateAddress env).address ≠ "" ∧ (generateAddress env).city ≠ "" ∧
      (generateAddress env).state ≠ "" ∧
      (generateAddress env).postalCode ≠ "" := by
  simp only [generateAddress]
  by_cases hlen : env.addressLines.length < 2
  · rw [if_pos hlen]
    exact ⟨hstreet, hcity, hstate, hpost⟩
  · have hlen2 : 2 ≤ env.addressLines.length := by omega
    rw [if_neg hlen]
    by_cases hc : (env.addressLines.getD 1 "").data.contains ',' = true
    · rw [if_pos hc]
      refine ⟨hline0 hlen2, hline1 hlen2 hc, ?_, ?_⟩
      · cases hSZ : pySplit (pyStrip
            ((pySplitSep ',' (env.addressLines.getD 1 "")).getD 1 "")) with
        | nil =>
            simp only [hSZ]
            exact hstate
        | cons t ts =>
            simp only [hSZ]
            exact pySplit_mem_ne _ t (by rw [hSZ]; exact List.mem_cons_self t ts)
      · cases hSZ : pySplit (pyStrip
            ((pySplitSep ',' (env.addressLines.getD 1 "")).getD 1 "")) with
        | nil =>
            simp only [hSZ]
            exact hpost
        | cons t ts =>
            cases ts with
            | nil =>
                simp only [hSZ]
                exact hpost
            | cons t1 ts1 =>
                simp only [hSZ]
                exact pySplit_mem_ne _ t1 (by
                  rw [hSZ]
                  exact List.mem_cons_of_mem t (List.mem_cons_self t1 ts1))
    · rw [if_neg hc]
      refine ⟨hline0 hlen2, ?_, ?_, ?_⟩
      · cases hCS : pySplit (env.addressLines.getD 1 "") with
        | nil =>
            simp only [hCS]
            exact hcity
        | cons t ts =>
            simp only [hCS]
            exact pySplit_mem_ne _ t (by rw [hCS]; exact List.mem_cons_self t ts)
      · cases hCS : pySplit (env.addressLines.getD 1 "") with
        | nil =>
            simp only [hCS]
            exact hstate
        | cons t ts =>
            cases ts with
            | nil =>
                simp only [hCS]
                exact hstate
            | cons t1 ts1 =>
                simp only [hCS]
                exact pySplit_mem_ne _ t1 (by
                  rw [hCS]
                  exact List.mem_cons_of_mem t (List.mem_cons_self t1 ts1))
      · cases hCS : pySplit (env.addressLines.getD 1 "") with
        | nil =>
            simp only [hCS]
            exact hpost
        | cons t ts =>
            cases ts with
            | nil =>
                simp only [hCS]
                exact hpost
            | cons t1 ts1 =>
                cases ts1 with
                | nil =>
                    simp only [hCS]
                    exact hpost
                | cons t2 ts2 =>
                    simp only [hCS]
                    exact pySplit_mem_ne _ t2 (by
                      rw [hCS]
                      exact List.mem_cons_of_mem t (List.mem_cons_of_mem t1
                        (List.mem_cons_self t2 ts2)))

/-- Witness for the amended C4 at a concrete two-line address with comma. -/
theorem generateAddress_fields_witness :
    (generateAddress envW).address ≠ "" ∧ (generateAddress envW).city ≠ "" ∧
      (generateAddress envW).state ≠ "" ∧
      (generateAddress envW).postalCode ≠ "" :=
  generateAddress_fields envW (by decide) (by decide) (by decide) (by decide)
    (by decide) (by decide)

/-- Claim C7: `generateName` is total and, whenever the environment's name
values are non-empty (as faker's are), returns non-empty firstName and
lastName for every hint — `None`, recognised genders in any case, or any
unrecognised string, which falls back to the unconditioned first name —
and the last name never depends on the hint. -/
theorem generateName_total (env : FakeEnv)
    (h1 : env.firstNameNeutral ≠ "") (h2 : env.firstNameMale ≠ "")
    (h3 : env.firstNameFemale ≠ "") (h4 : env.lastName ≠ "") :
    (∀ g : Option String,
        (generateName env g).firstName ≠ "" ∧
          (generateName env g).lastName ≠ "") ∧
    (∀ s : String, pyLower s ≠ "male" → pyLower s ≠ "female" →
        (generateName env (some s)).firstName =
          (generateName env none).firstName) ∧
    (∀ g1 g2 : Option String,
        (generateName env g1).lastName = (generateName env g2).lastName) := by
  refine ⟨?_, ?_, ?_⟩
  · intro g
    cases g with
    | none => exact ⟨h1, h4⟩
    | some s =>
        refine ⟨?_, h4⟩
        simp only [generateName]
        split_ifs <;> assumption
  · intro s hm hf
    simp only [generateName]
    rw [if_neg hm, if_neg hf]
  · intro g1 g2
    rfl

/-- Witness for C7 at the hints `"bogus"` and `"Male"`. -/
theorem generateName_total_witness :
    (generateName envW (some "bogus")).firstName ≠ "" ∧
      (generateName envW (some "bogus")).firstName =
        (generateName envW none).firstName ∧
      (generateName envW (some "Male")).lastName =
        (generateName envW (some "bogus")).lastName :=
  have h := generateName_total envW (by decide) (by decide) (by decide)
    (by decide)
  ⟨(h.1 (some "bogus")).1, h.2.1 "bogus" (by decide) (by decide),
    h.2.2 (some "Male") (some "bogus")⟩

/-- Claim C8: loading fails with a file-not-found error when the path is
missing, with a wrapped empty-or-malformed error (cause `noHeaders`) when
the header row is absent, with a wrapped empty-or-malformed error (cause
`noValidRows`) when no non-empty data row remains, and otherwise returns
the data rows in file order, skipping a row exactly when every cell is
blank; the error kinds are distinguishable by the caller. -/
theorem load_demographics_spec (filename : String) :
    load_demographics_data none filename = .error (.fileNotFound filename) ∧
    load_demographics_data (some []) filename =
      .error (.failedToLoad filename .noHeaders) ∧
    (∀ header rows,
        rows.filter (fun row => row.any (fun c => c != "")) = [] →
        load_demographics_data (some (header :: rows)) filename =
          .error (.failedToLoad filename .noValidRows)) ∧
    (∀ header rows,
        rows.filter (fun row => row.any (fun c => c != "")) ≠ [] →
        load_demographics_data (some (header :: rows)) filename =
          .ok (rows.filter (fun row => row.any (fun c => c != "")))) ∧
    (∀ cause, LoadError.fileNotFound filename ≠ .failedToLoad filename cause) ∧
    LoadError.failedToLoad filename .noHeaders ≠
      .failedToLoad filename .noValidRows := by
  refine ⟨rfl, rfl, ?_, ?_, ?_, by simp⟩
  · intro header rows h
    simp [load_demographics_data, h]
  · intro header rows h
    simp [load_demographics_data, h]
  · intro cause
    simp

/-- Witness for C8: a missing file, and a present file with one blank and
one non-blank data row. -/
theorem load_demographics_spec_witness :
    load_demographics_data none "input.csv" =
      .error (.fileNotFound "input.csv") ∧
    load_demographics_data (some [["h1", "h2"], ["", ""], ["a", ""]])
      "input.csv" = .ok [["a", ""]] := by
  have h := load_demographics_spec "input.csv"
  refine ⟨h.1, ?_⟩
  have h4 := h.2.2.2.1 ["h1", "h2"] [["", ""], ["a", ""]] (by decide)
  rw [h4]
  decide
